import Mathlib

/-!
Verification of `RpcDataProviderRemote` (src/unnamed/part_000), the remote
bridge endpoint that hosts a `DataProvider` tree and exposes `initialize`,
`getMessages` and `close` over an RPC channel, forwarding the provider's
extension-point callbacks (`progressCallback`, `reportMetadataCallback`,
`notifyPlayerManager`) as `extensionPointCallback` channel messages.

The embedding models the endpoint as a step function on its single piece of
state (the `provider` variable captured by the constructor's closures).  Each
incoming event (an RPC request, or the provider invoking one of the wired
callback slots) yields the new state, the list of calls made on the provider,
and the list of messages sent on the channel.  Opaque values (descriptors,
metadata, callback payloads) are modelled as `Nat`; an `ArrayBuffer` is
modelled by its identity (a `Nat` id), since the handler's `Set` deduplicates
buffers by reference identity.
-/

/-- Opaque serialized provider descriptor (`DataProviderDescriptor`). -/
abbrev Descriptor := Nat

/-- Opaque metadata value resolved by `provider.initialize`. -/
abbrev Metadata := Nat

/-- Opaque payload handed to an extension-point callback slot. -/
abbrev CallbackData := Nat

/-- Timestamps (`start` / `end` of a `getMessages` range); opaque to the
bridge, ordered so that ranges with `start > end` can be expressed. -/
abbrev Time := Int

/-- A topic name. -/
abbrev Topic := String

/-- Identity of an underlying binary `ArrayBuffer`.  Two records whose
`message` fields are the same JS object have equal `BufId`s. -/
abbrev BufId := Nat

/-- A raw (ROS-binary) record: topic and timestamp metadata plus the
underlying binary buffer, identified by reference. -/
structure RawMessage where
  topic : Topic
  receiveTime : Time
  message : BufId
deriving DecidableEq, Repr

/-- The result object of `provider.getMessages`: three optional record
lists, destructured by the handler as
`const { parsedMessages, rosBinaryMessages, bobjects } = messages`.
`none` models a `null`/`undefined` field (the handler only null-checks
`parsedMessages` and `bobjects`). -/
structure GetMessagesResult where
  parsedMessages : Option (List RawMessage)
  rosBinaryMessages : Option (List RawMessage)
  bobjects : Option (List RawMessage)
deriving DecidableEq, Repr

/-- A JS object literal mapping topic-list field names to topic lists, as
passed for the third argument of `provider.getMessages`.  Represented as
key/value pairs; absent keys read as `undefined` (`none`). -/
abbrev TopicFilter := List (String × List Topic)

/-- Property lookup on a `TopicFilter` object: `f.key` in JS. -/
def filterField (f : TopicFilter) (key : String) : Option (List Topic) :=
  f.lookup key

/-- The literal `{ rosBinaryMessages: topics }` built by the `getMessages`
handler (src/unnamed/part_000 line 37). -/
def mkGetMessagesFilter (topics : List Topic) : TopicFilter :=
  [("rosBinaryMessages", topics)]

/-- Behaviour of a `DataProvider` instance, as the bridge observes it: the
result of `initialize`, the result of `getMessages` at each argument tuple,
and the result of `close`.  `Except String` models a resolved value versus a
raised/rejected error. -/
structure DataProvider where
  initializeResult : Except String Metadata
  getMessages : Time → Time → TopicFilter → Except String GetMessagesResult
  closeResult : Except String Unit

/-- The three extension-point callback slots wired by the `initialize`
handler. -/
inductive CallbackSlot
  | progress
  | metadata
  | notify
deriving DecidableEq, Repr

/-- The `type` tag the bridge attaches when forwarding a slot invocation
(src/unnamed/part_000 lines 26–33). -/
def slotName : CallbackSlot → String
  | .progress => "progressCallback"
  | .metadata => "reportMetadataCallback"
  | .notify => "notifyPlayerManager"

/-- Errors with which a bridge request can fail. -/
inductive RpcError
  /-- The `Error` thrown at src/unnamed/part_000 lines 40–44 when the
  provider's result has a non-null `parsedMessages` or `bobjects` field. -/
  | contractViolation
  /-- An error raised by the provider itself, propagated as a failed reply. -/
  | providerError (e : String)
  /-- The `TypeError` from dereferencing the `provider` variable before any
  `initialize` request has assigned it. -/
  | undefinedProvider
deriving DecidableEq, Repr

/-- Successful reply payloads of the three request handlers. -/
inductive ReplyPayload
  /-- `initialize` resolves with the provider's metadata. -/
  | initializeReply (m : Metadata)
  /-- `getMessages` resolves with
  `{ messages: messagesToSend, [Rpc.transferrables]: Array.from(arrayBuffers) }`. -/
  | getMessagesReply (messages : List RawMessage) (transferrables : List BufId)
  /-- `close` resolves with the provider's `close()` result. -/
  | closeReply
deriving DecidableEq, Repr

deriving instance DecidableEq for Except

/-- A message the bridge sends on the channel: the reply to the current
request, or a fire-and-forget `extensionPointCallback` event. -/
inductive ChannelMsg
  | reply (r : Except RpcError ReplyPayload)
  | extensionPointCallback (type : String) (data : CallbackData)
deriving DecidableEq, Repr

/-- A call the bridge makes on the factory or the provider while handling
an event. -/
inductive ProviderCall
  | factoryCall (d : Descriptor)
  | initializeCall
  | getMessagesCall (start end_ : Time) (filter : TopicFilter)
  | closeCall
deriving DecidableEq, Repr

/-- The bridge endpoint's state: the `provider` variable of the constructor,
`none` before the first `initialize` request assigns it. -/
structure BridgeState where
  provider : Option DataProvider

/-- The bridge state before any request: `let provider: DataProvider;`. -/
def initialBridgeState : BridgeState := ⟨none⟩

/-- An event processed by the bridge: one of the three RPC requests, or the
provider invoking a wired extension-point slot. -/
inductive BridgeEvent
  | initializeReq (childDescriptor : Descriptor)
  | getMessagesReq (start end_ : Time) (topics : List Topic)
  | closeReq
  | providerCallback (slot : CallbackSlot) (data : CallbackData)

/-- The outcome of processing one event: the new bridge state, the provider
calls made, and the channel messages sent, in order. -/
structure StepResult where
  state : BridgeState
  calls : List ProviderCall
  msgs : List ChannelMsg

/-- Insertion into a JS `Set` (`arrayBuffers.add(message.message)`): appends
unless the element, compared by identity, is already present. -/
def setAdd (s : List BufId) (b : BufId) : List BufId :=
  if b ∈ s then s else s ++ [b]

/-- The `Set` of underlying buffers built by the `getMessages` handler's loop
(`for (const message of messagesToSend) arrayBuffers.add(message.message)`),
read back in insertion order by `Array.from`. -/
def bufferSet (msgs : List RawMessage) : List BufId :=
  msgs.foldl (fun s m => setAdd s m.message) []

/-- The body of the `getMessages` handler once the provider's promise has
resolved with `messages` (src/unnamed/part_000 lines 38–49). -/
def getMessagesBody (messages : GetMessagesResult) :
    Except RpcError ReplyPayload :=
  let messagesToSend := messages.rosBinaryMessages.getD []
  if messages.parsedMessages ≠ none ∨ messages.bobjects ≠ none then
    .error .contractViolation
  else
    .ok (.getMessagesReply messagesToSend (bufferSet messagesToSend))

/-- One step of the bridge endpoint: dispatch an event against the current
state, mirroring the four closures installed by the constructor. -/
def step (getDataProvider : Descriptor → DataProvider) (s : BridgeState) :
    BridgeEvent → StepResult
  | .initializeReq d =>
      let p := getDataProvider d
      let reply :=
        match p.initializeResult with
        | .ok m => .ok (.initializeReply m)
        | .error e => .error (.providerError e)
      ⟨⟨some p⟩, [.factoryCall d, .initializeCall], [.reply reply]⟩
  | .getMessagesReq start end_ topics =>
      match s.provider with
      | none => ⟨s, [], [.reply (.error .undefinedProvider)]⟩
      | some p =>
          let filter := mkGetMessagesFilter topics
          match p.getMessages start end_ filter with
          | .error e =>
              ⟨s, [.getMessagesCall start end_ filter],
                [.reply (.error (.providerError e))]⟩
          | .ok messages =>
              ⟨s, [.getMessagesCall start end_ filter],
                [.reply (getMessagesBody messages)]⟩
  | .closeReq =>
      match s.provider with
      | none => ⟨s, [], [.reply (.error .undefinedProvider)]⟩
      | some p =>
          let reply :=
            match p.closeResult with
            | .ok _ => .ok .closeReply
            | .error e => .error (.providerError e)
          ⟨s, [.closeCall], [.reply reply]⟩
  | .providerCallback slot d =>
      match s.provider with
      | none => ⟨s, [], []⟩
      | some _ => ⟨s, [], [.extensionPointCallback (slotName slot) d]⟩

/-- Process a list of events, returning the per-event channel output lists
in order. -/
def runOutputs (f : Descriptor → DataProvider) (s : BridgeState) :
    List BridgeEvent → List (List ChannelMsg)
  | [] => []
  | e :: es =>
      let r := step f s e
      r.msgs :: runOutputs f r.state es

/-- A provider whose `getMessages` always resolves with two raw records on
`topicA` sharing one underlying 4-identified buffer. -/
def sampleProvider : DataProvider where
  initializeResult := .ok 7
  getMessages := fun _ _ _ =>
    .ok ⟨none, some [⟨"topicA", 0, 4⟩, ⟨"topicA", 1, 4⟩], none⟩
  closeResult := .ok ()

/-- A provider whose `getMessages` resolves with a batch carrying a
`parsedMessages` field, violating the raw-only contract. -/
def parsedProvider : DataProvider where
  initializeResult := .ok 7
  getMessages := fun _ _ _ =>
    .ok ⟨some [], some [⟨"topicA", 0, 4⟩], none⟩
  closeResult := .ok ()

/-- A provider that rejects `getMessages` when `start = 0` and otherwise
resolves with a clean raw batch. -/
def flakyProvider : DataProvider where
  initializeResult := .ok 7
  getMessages := fun start _ _ =>
    if start = 0 then .error "boom"
    else .ok ⟨none, some [⟨"topicA", 0, 3⟩], none⟩
  closeResult := .ok ()

/-- A provider whose `getMessages` resolves with a batch whose three record
fields are all absent. -/
def emptyProvider : DataProvider where
  initializeResult := .ok 7
  getMessages := fun _ _ _ => .ok ⟨none, none, none⟩
  closeResult := .ok ()

theorem setAdd_nodup {s : List BufId} (h : s.Nodup) (b : BufId) :
    (setAdd s b).Nodup := by
  unfold setAdd
  split
  · exact h
  · next hb => simp [List.nodup_append, h, hb]

theorem mem_setAdd {s : List BufId} {a b : BufId} :
    a ∈ setAdd s b ↔ a ∈ s ∨ a = b := by
  unfold setAdd
  split
  · next hb =>
      constructor
      · exact Or.inl
      · rintro (h | rfl) <;> assumption
  · simp

theorem foldl_setAdd_nodup (msgs : List RawMessage) :
    ∀ acc : List BufId, acc.Nodup →
      (msgs.foldl (fun s m => setAdd s m.message) acc).Nodup := by
  induction msgs with
  | nil => exact fun _ h => h
  | cons m ms ih => exact fun acc h => ih _ (setAdd_nodup h _)

theorem mem_foldl_setAdd (msgs : List RawMessage) :
    ∀ (acc : List BufId) (a : BufId),
      a ∈ msgs.foldl (fun s m => setAdd s m.message) acc ↔
        a ∈ acc ∨ ∃ m ∈ msgs, m.message = a := by
  induction msgs with
  | nil => simp
  | cons m ms ih =>
      intro acc a
      rw [List.foldl_cons, ih, mem_setAdd]
      constructor
      · rintro ((h | rfl) | ⟨x, hx, hm⟩)
        · exact Or.inl h
        · exact Or.inr ⟨m, List.mem_cons_self m ms, rfl⟩
        · exact Or.inr ⟨x, List.mem_cons_of_mem m hx, hm⟩
      · rintro (h | ⟨x, hx, hm⟩)
        · exact Or.inl (Or.inl h)
        · rcases List.mem_cons.mp hx with rfl | hx
          · exact Or.inl (Or.inr hm.symm)
          · exact Or.inr ⟨x, hx, hm⟩

/-- The `Set` of buffers holds no duplicates. -/
theorem bufferSet_nodup (msgs : List RawMessage) : (bufferSet msgs).Nodup :=
  foldl_setAdd_nodup msgs [] List.nodup_nil

/-- A buffer is in the `Set` exactly when some record references it. -/
theorem mem_bufferSet (msgs : List RawMessage) (a : BufId) :
    a ∈ bufferSet msgs ↔ ∃ m ∈ msgs, m.message = a := by
  simp [bufferSet, mem_foldl_setAdd]

/-- C1: for every `getMessages` request, if the provider's returned batch has
a non-null `parsedMessages` or `bobjects` field, the bridge fails that
request with an error and sends nothing but that failed reply. -/
theorem getMessages_rejects_parsed_batches
    (f : Descriptor → DataProvider) (s : BridgeState) (p : DataProvider)
    (start end_ : Time) (topics : List Topic) (batch : GetMessagesResult)
    (hp : s.provider = some p)
    (hb : p.getMessages start end_ (mkGetMessagesFilter topics) = .ok batch)
    (hv : batch.parsedMessages ≠ none ∨ batch.bobjects ≠ none) :
    (step f s (.getMessagesReq start end_ topics)).msgs
      = [.reply (.error .contractViolation)] := by
  simp only [step, hp, hb]
  simp [getMessagesBody, if_pos hv]

/-- C1 witness: a run against a provider returning a parsed batch fails with
the contract-violation error. -/
theorem getMessages_rejects_parsed_batches_witness :
    (step (fun _ => parsedProvider) ⟨some parsedProvider⟩
        (.getMessagesReq 0 10 ["topicA"])).msgs
      = [.reply (.error .contractViolation)] :=
  getMessages_rejects_parsed_batches (fun _ => parsedProvider)
    ⟨some parsedProvider⟩ parsedProvider 0 10 ["topicA"]
    ⟨some [], some [⟨"topicA", 0, 4⟩], none⟩ rfl rfl (Or.inl (by simp))

/-- C2: a successful `getMessages` reply's transfer list holds each distinct
underlying buffer exactly once (no duplicates) and exactly the buffers
referenced by the replied records. -/
theorem getMessages_transfer_set_dedup
    (f : Descriptor → DataProvider) (s : BridgeState)
    (start end_ : Time) (topics : List Topic)
    (msgs : List RawMessage) (bufs : List BufId)
    (h : (step f s (.getMessagesReq start end_ topics)).msgs
        = [.reply (.ok (.getMessagesReply msgs bufs))]) :
    bufs.Nodup ∧ ∀ b : BufId, b ∈ bufs ↔ ∃ m ∈ msgs, m.message = b := by
  rcases hs : s.provider with _ | p
  · simp [step, hs] at h
  · rcases hg : p.getMessages start end_ (mkGetMessagesFilter topics)
      with e | batch
    · simp [step, hs, hg] at h
    · by_cases hv : batch.parsedMessages ≠ none ∨ batch.bobjects ≠ none
      · simp only [step, hs, hg] at h
        simp [getMessagesBody, if_pos hv] at h
      · simp only [step, hs, hg] at h
        simp [getMessagesBody, if_neg hv] at h
        rcases h with ⟨rfl, rfl⟩
        exact ⟨bufferSet_nodup _, fun b => mem_bufferSet _ b⟩

/-- C2 witness: two records sharing buffer 4 yield the transfer list [4]. -/
theorem getMessages_transfer_set_dedup_witness :
    ([4] : List BufId).Nodup ∧
      ∀ b : BufId, b ∈ ([4] : List BufId) ↔
        ∃ m ∈ [(⟨"topicA", 0, 4⟩ : RawMessage), ⟨"topicA", 1, 4⟩],
          RawMessage.message m = b :=
  getMessages_transfer_set_dedup (fun _ => sampleProvider)
    ⟨some sampleProvider⟩ 0 10 ["topicA"]
    [⟨"topicA", 0, 4⟩, ⟨"topicA", 1, 4⟩] [4] (by decide)

/-- C3 counterexample: in a run where `initialize` and then `close` both
resolve successfully (the first two outputs are the successful replies), a
subsequent invocation of the provider's progress slot still makes the bridge
forward an `extensionPointCallback` event on the channel. -/
theorem close_then_callback_still_forwarded :
    runOutputs (fun _ => sampleProvider) initialBridgeState
      [.initializeReq 0, .closeReq, .providerCallback .progress 5]
      = [[.reply (.ok (.initializeReply 7))], [.reply (.ok .closeReply)],
         [.extensionPointCallback "progressCallback" 5]] := by decide

/-- C3 (amended): handling a close request leaves the provider installed and
the callback wiring active — any later invocation of a callback slot still
produces exactly one `extensionPointCallback` message; emission after close
ceases only if the provider itself stops invoking the slots. -/
theorem close_does_not_unwire_callbacks
    (f : Descriptor → DataProvider) (s : BridgeState) (p : DataProvider)
    (hp : s.provider = some p) (slot : CallbackSlot) (d : CallbackData) :
    (step f s .closeReq).state.provider = some p ∧
    (step f (step f s .closeReq).state (.providerCallback slot d)).msgs
      = [.extensionPointCallback (slotName slot) d] := by
  simp [step, hp]

/-- C3 amended witness: concrete instantiation after a close step. -/
theorem close_does_not_unwire_callbacks_witness :
    (step (fun _ => sampleProvider) ⟨some sampleProvider⟩
        .closeReq).state.provider = some sampleProvider ∧
    (step (fun _ => sampleProvider)
        (step (fun _ => sampleProvider) ⟨some sampleProvider⟩ .closeReq).state
        (.providerCallback .progress 5)).msgs
      = [.extensionPointCallback (slotName .progress) 5] :=
  close_does_not_unwire_callbacks (fun _ => sampleProvider)
    ⟨some sampleProvider⟩ sampleProvider rfl .progress 5

/-- C4 counterexample: the topic-filter object built by the `getMessages`
handler has no field named `rawOnly` — reading that field yields `none` (not
the request's topics); the topics ride in the field named
`rosBinaryMessages`. -/
theorem filter_has_no_rawOnly_field :
    filterField (mkGetMessagesFilter ["topicA"]) "rawOnly" = none ∧
    filterField (mkGetMessagesFilter ["topicA"]) "rosBinaryMessages"
      = some ["topicA"] := by decide

/-- C4 (amended): every `getMessages(start, end, topics)` request is
forwarded as a single `Provider.getMessages(start, end, filter)` call whose
filter carries the request's topics in the field named `rosBinaryMessages`,
with every other field absent. -/
theorem getMessages_forwards_rosBinaryMessages_filter
    (f : Descriptor → DataProvider) (s : BridgeState) (p : DataProvider)
    (hp : s.provider = some p) (start end_ : Time) (topics : List Topic) :
    (step f s (.getMessagesReq start end_ topics)).calls
      = [.getMessagesCall start end_ (mkGetMessagesFilter topics)] ∧
    filterField (mkGetMessagesFilter topics) "rosBinaryMessages"
      = some topics ∧
    ∀ k : String, k ≠ "rosBinaryMessages" →
      filterField (mkGetMessagesFilter topics) k = none := by
  refine ⟨?_, rfl, ?_⟩
  · cases hg : p.getMessages start end_ (mkGetMessagesFilter topics) <;>
      simp [step, hp, hg]
  · intro k hk
    have hbeq : (k == "rosBinaryMessages") = false := beq_eq_false_iff_ne.mpr hk
    simp [filterField, mkGetMessagesFilter, List.lookup, hbeq]

/-- C4 amended witness: concrete request forwarded with the
`rosBinaryMessages` filter. -/
theorem getMessages_forwards_rosBinaryMessages_filter_witness :
    (step (fun _ => sampleProvider) ⟨some sampleProvider⟩
        (.getMessagesReq 0 10 ["topicA"])).calls
      = [.getMessagesCall 0 10 (mkGetMessagesFilter ["topicA"])] ∧
    filterField (mkGetMessagesFilter ["topicA"]) "rosBinaryMessages"
      = some ["topicA"] ∧
    ∀ k : String, k ≠ "rosBinaryMessages" →
      filterField (mkGetMessagesFilter ["topicA"]) k = none :=
  getMessages_forwards_rosBinaryMessages_filter (fun _ => sampleProvider)
    ⟨some sampleProvider⟩ sampleProvider rfl 0 10 ["topicA"]

/-- C5: the requested range reaches the provider exactly as received — for
every `start`, `end` (including `start > end`) the single forwarded call
carries the unmodified pair. -/
theorem getMessages_passes_range_unmodified
    (f : Descriptor → DataProvider) (s : BridgeState) (p : DataProvider)
    (hp : s.provider = some p) (start end_ : Time) (topics : List Topic) :
    (step f s (.getMessagesReq start end_ topics)).calls
      = [.getMessagesCall start end_ (mkGetMessagesFilter topics)] := by
  cases hg : p.getMessages start end_ (mkGetMessagesFilter topics) <;>
    simp [step, hp, hg]

/-- C5 witness: a reversed range (start 10 > end 2) is forwarded as-is. -/
theorem getMessages_passes_range_unmodified_witness :
    (step (fun _ => sampleProvider) ⟨some sampleProvider⟩
        (.getMessagesReq 10 2 ["topicA"])).calls
      = [.getMessagesCall 10 2 (mkGetMessagesFilter ["topicA"])] :=
  getMessages_passes_range_unmodified (fun _ => sampleProvider)
    ⟨some sampleProvider⟩ sampleProvider rfl 10 2 ["topicA"]

/-- C6: a provider error on `getMessages` is propagated as a failed reply to
that request only — the bridge state (the installed provider) is unchanged,
and a later `getMessages` against the same instance still succeeds when the
provider resolves with a clean raw batch. -/
theorem provider_error_scoped_to_request
    (f : Descriptor → DataProvider) (s : BridgeState) (p : DataProvider)
    (hp : s.provider = some p)
    (start end_ : Time) (topics : List Topic) (e : String)
    (he : p.getMessages start end_ (mkGetMessagesFilter topics) = .error e)
    (start2 end2 : Time) (topics2 : List Topic) (batch : GetMessagesResult)
    (hg2 : p.getMessages start2 end2 (mkGetMessagesFilter topics2) = .ok batch)
    (hclean : batch.parsedMessages = none ∧ batch.bobjects = none) :
    (step f s (.getMessagesReq start end_ topics)).msgs
      = [.reply (.error (.providerError e))] ∧
    (step f s (.getMessagesReq start end_ topics)).state = s ∧
    (step f (step f s (.getMessagesReq start end_ topics)).state
        (.getMessagesReq start2 end2 topics2)).msgs
      = [.reply (.ok (.getMessagesReply (batch.rosBinaryMessages.getD [])
          (bufferSet (batch.rosBinaryMessages.getD []))))] := by
  have hstep : step f s (.getMessagesReq start end_ topics)
      = ⟨s, [.getMessagesCall start end_ (mkGetMessagesFilter topics)],
          [.reply (.error (.providerError e))]⟩ := by
    simp [step, hp, he]
  refine ⟨by rw [hstep], by rw [hstep], ?_⟩
  rw [hstep]
  simp only [step, hp, hg2]
  simp [getMessagesBody, hclean.1, hclean.2]

/-- C6 witness: `flakyProvider` rejects at start 0 and then succeeds at
start 1 with its single-record batch. -/
theorem provider_error_scoped_to_request_witness :
    (step (fun _ => flakyProvider) ⟨some flakyProvider⟩
        (.getMessagesReq 0 10 ["topicA"])).msgs
      = [.reply (.error (.providerError "boom"))] ∧
    (step (fun _ => flakyProvider) ⟨some flakyProvider⟩
        (.getMessagesReq 0 10 ["topicA"])).state = ⟨some flakyProvider⟩ ∧
    (step (fun _ => flakyProvider)
        (step (fun _ => flakyProvider) ⟨some flakyProvider⟩
          (.getMessagesReq 0 10 ["topicA"])).state
        (.getMessagesReq 1 10 ["topicA"])).msgs
      = [.reply (.ok (.getMessagesReply
          ((some [⟨"topicA", 0, 3⟩] : Option (List RawMessage)).getD [])
          (bufferSet ((some [⟨"topicA", 0, 3⟩] :
            Option (List RawMessage)).getD []))))] :=
  provider_error_scoped_to_request (fun _ => flakyProvider)
    ⟨some flakyProvider⟩ flakyProvider rfl 0 10 ["topicA"] "boom" (by decide)
    1 10 ["topicA"] ⟨none, some [⟨"topicA", 0, 3⟩], none⟩ (by decide)
    ⟨rfl, rfl⟩

/-- C7: when the provider's `initialize` resolves with metadata `m`, the
`initialize` reply carries exactly `m`, the built provider is installed, and
from then on each invocation of a callback slot with payload `d` sends
exactly one `extensionPointCallback` message tagged `progressCallback`,
`reportMetadataCallback` or `notifyPlayerManager` respectively, with data
`d`. -/
theorem initialize_wires_callbacks_and_replies_metadata
    (f : Descriptor → DataProvider) (s : BridgeState) (d : Descriptor)
    (m : Metadata) (hm : (f d).initializeResult = .ok m) :
    (step f s (.initializeReq d)).msgs
      = [.reply (.ok (.initializeReply m))] ∧
    (step f s (.initializeReq d)).state.provider = some (f d) ∧
    (∀ (slot : CallbackSlot) (pd : CallbackData),
      (step f (step f s (.initializeReq d)).state
          (.providerCallback slot pd)).msgs
        = [.extensionPointCallback (slotName slot) pd]) ∧
    slotName .progress = "progressCallback" ∧
    slotName .metadata = "reportMetadataCallback" ∧
    slotName .notify = "notifyPlayerManager" := by
  refine ⟨by simp [step, hm], rfl, ?_, rfl, rfl, rfl⟩
  intro slot pd
  simp [step]

/-- C7 witness: concrete initialize followed by a metadata-slot
invocation. -/
theorem initialize_wires_callbacks_witness :
    (step (fun _ => sampleProvider) initialBridgeState
        (.initializeReq 0)).msgs = [.reply (.ok (.initializeReply 7))] ∧
    (step (fun _ => sampleProvider) initialBridgeState
        (.initializeReq 0)).state.provider = some sampleProvider ∧
    (∀ (slot : CallbackSlot) (pd : CallbackData),
      (step (fun _ => sampleProvider)
          (step (fun _ => sampleProvider) initialBridgeState
            (.initializeReq 0)).state
          (.providerCallback slot pd)).msgs
        = [.extensionPointCallback (slotName slot) pd]) ∧
    slotName .progress = "progressCallback" ∧
    slotName .metadata = "reportMetadataCallback" ∧
    slotName .notify = "notifyPlayerManager" :=
  initialize_wires_callbacks_and_replies_metadata (fun _ => sampleProvider)
    initialBridgeState 0 7 rfl

/-- C8: a second `initialize` request builds a provider from the new
descriptor and installs it in place of the first; the step neither consults
nor closes the first provider (its outcome equals a first-time initialize
and makes no `close` call), and when the new provider's `initialize`
resolves, the reply is a success. -/
theorem second_initialize_replaces_provider
    (f : Descriptor → DataProvider) (s : BridgeState) (p1 : DataProvider)
    (hp : s.provider = some p1) (d2 : Descriptor) :
    (step f s (.initializeReq d2)).state.provider = some (f d2) ∧
    (step f s (.initializeReq d2)).calls
      = [.factoryCall d2, .initializeCall] ∧
    ProviderCall.closeCall ∉ (step f s (.initializeReq d2)).calls ∧
    step f s (.initializeReq d2)
      = step f initialBridgeState (.initializeReq d2) ∧
    ∀ m : Metadata, (f d2).initializeResult = .ok m →
      (step f s (.initializeReq d2)).msgs
        = [.reply (.ok (.initializeReply m))] := by
  refine ⟨rfl, rfl, by simp [step], rfl, ?_⟩
  intro m hm
  simp [step, hm]

/-- C8 witness: a second initialize with descriptor 1 after one with
descriptor 0. -/
theorem second_initialize_replaces_provider_witness :
    (step (fun _ => sampleProvider) ⟨some sampleProvider⟩
        (.initializeReq 1)).state.provider = some sampleProvider ∧
    (step (fun _ => sampleProvider) ⟨some sampleProvider⟩
        (.initializeReq 1)).calls = [.factoryCall 1, .initializeCall] ∧
    ProviderCall.closeCall ∉ (step (fun _ => sampleProvider)
        ⟨some sampleProvider⟩ (.initializeReq 1)).calls ∧
    step (fun _ => sampleProvider) ⟨some sampleProvider⟩ (.initializeReq 1)
      = step (fun _ => sampleProvider) initialBridgeState
          (.initializeReq 1) ∧
    ∀ m : Metadata,
      (sampleProvider : DataProvider).initializeResult = .ok m →
        (step (fun _ => sampleProvider) ⟨some sampleProvider⟩
            (.initializeReq 1)).msgs
          = [.reply (.ok (.initializeReply m))] :=
  second_initialize_replaces_provider (fun _ => sampleProvider)
    ⟨some sampleProvider⟩ sampleProvider rfl 1

/-- C9: before any `initialize` request has installed a provider, both a
`getMessages` and a `close` request fail (the handler dereferences the unset
provider variable) and no successful reply is produced. -/
theorem request_before_initialize_fails
    (f : Descriptor → DataProvider) (s : BridgeState)
    (hp : s.provider = none)
    (start end_ : Time) (topics : List Topic) :
    (step f s (.getMessagesReq start end_ topics)).msgs
      = [.reply (.error .undefinedProvider)] ∧
    (step f s .closeReq).msgs = [.reply (.error .undefinedProvider)] := by
  simp [step, hp]

/-- C9 witness: requests against the initial state fail. -/
theorem request_before_initialize_fails_witness :
    (step (fun _ => sampleProvider) initialBridgeState
        (.getMessagesReq 0 10 ["topicA"])).msgs
      = [.reply (.error .undefinedProvider)] ∧
    (step (fun _ => sampleProvider) initialBridgeState .closeReq).msgs
      = [.reply (.error .undefinedProvider)] :=
  request_before_initialize_fails (fun _ => sampleProvider)
    initialBridgeState rfl 0 10 ["topicA"]

/-- C10: if the provider's batch has all three record fields absent, the
request succeeds with an empty message list and an empty transfer list. -/
theorem absent_raw_field_yields_empty_reply
    (f : Descriptor → DataProvider) (s : BridgeState) (p : DataProvider)
    (hp : s.provider = some p) (start end_ : Time) (topics : List Topic)
    (hg : p.getMessages start end_ (mkGetMessagesFilter topics)
        = .ok ⟨none, none, none⟩) :
    (step f s (.getMessagesReq start end_ topics)).msgs
      = [.reply (.ok (.getMessagesReply [] []))] := by
  simp only [step, hp, hg]
  simp [getMessagesBody, bufferSet]

/-- C10 witness: `emptyProvider` yields the empty successful reply. -/
theorem absent_raw_field_yields_empty_reply_witness :
    (step (fun _ => emptyProvider) ⟨some emptyProvider⟩
        (.getMessagesReq 0 10 ["topicA"])).msgs
      = [.reply (.ok (.getMessagesReply [] []))] :=
  absent_raw_field_yields_empty_reply (fun _ => emptyProvider)
    ⟨some emptyProvider⟩ emptyProvider rfl 0 10 ["topicA"] rfl
